import Mathlib

/-!
Verification of the doris-mcp-server core against its specification.

The Python sources are shallowly embedded as Lean definitions:
`_check_sql_security` and the LIMIT-injection step of `execute_sql_query`
(sql_executor_tools.py), the catalog routing, TTL cache, hierarchy sort,
cache keys and column construction of `MetadataExtractor`
(schema_extractor.py), and the fallback structure of
`extract_common_sql_patterns`.
-/

namespace DorisMcp

/-! ## String primitives (Python semantics on ASCII inputs) -/

/-- ASCII lowercase of one character, as Python str.lower acts on the
ASCII SQL text used by this repository. -/
def lowerChar (c : Char) : Char :=
  if 'A' ≤ c ∧ c ≤ 'Z' then Char.ofNat (c.toNat + 32) else c

/-- Python `s.lower()` on a character list. -/
def lowerStr (s : List Char) : List Char := s.map lowerChar

/-- Python regex word character class `\w` = `[a-zA-Z0-9_]` (ASCII). -/
def isWordChar (c : Char) : Bool :=
  ('a' ≤ c && c ≤ 'z') || ('A' ≤ c && c ≤ 'Z') || ('0' ≤ c && c ≤ '9') || c == '_'

/-- Python regex whitespace class `\s` (ASCII). -/
def isSpaceChar (c : Char) : Bool :=
  c == ' ' || c == '\t' || c == '\n' || c == '\r' || c == '\x0b' || c == '\x0c'

/-- Python `s.strip()`: drop whitespace at both ends. -/
def pyStrip (s : List Char) : List Char :=
  ((s.dropWhile isSpaceChar).reverse.dropWhile isSpaceChar).reverse

/-- Match a literal at the head of `s`; return the rest on success. -/
def stripLit : List Char → List Char → Option (List Char)
  | [], s => some s
  | _ :: _, [] => none
  | c :: cs, d :: ds => if c == d then stripLit cs ds else none

/-- Regex `\s+` followed by a non-whitespace continuation: consume one or
more whitespace characters greedily (no backtracking is needed because
every continuation in the source patterns starts with a letter). -/
def spaces1 : List Char → Option (List Char)
  | [] => none
  | c :: cs => if isSpaceChar c then some (cs.dropWhile isSpaceChar) else none

/-- Regex word boundary just after a match: next char is absent or non-word. -/
def boundaryAfter : List Char → Bool
  | [] => true
  | c :: _ => !isWordChar c

/-- Head matcher for `word\b`: literal then trailing boundary. -/
def wordAt (w : List Char) (s : List Char) : Bool :=
  match stripLit w s with
  | some rest => boundaryAfter rest
  | none => false

/-- Head matcher for a bare literal (no trailing boundary). -/
def litAt (w : List Char) (s : List Char) : Bool := (stripLit w s).isSome

/-- Search every suffix, requiring a word boundary before the match
(regex `\b...`): `prevWord` records whether the previous char is a word
character; the string start is a boundary. -/
def searchWBAux (f : List Char → Bool) : Bool → List Char → Bool
  | prevWord, [] => !prevWord && f []
  | prevWord, c :: rest => (!prevWord && f (c :: rest)) || searchWBAux f (isWordChar c) rest

/-- Regex search for a pattern starting with `\b`. -/
def searchWB (f : List Char → Bool) (s : List Char) : Bool := searchWBAux f false s

/-- Plain regex search (no leading boundary), for `--` and `/\*`. -/
def searchSub (f : List Char → Bool) : List Char → Bool
  | [] => f []
  | c :: rest => f (c :: rest) || searchSub f rest

/-- Matcher for `\bword\b`. -/
def reWord (w : String) (s : List Char) : Bool := searchWB (wordAt w.data) s

/-- Matcher for `\bxp_` (leading boundary only). -/
def reWordStart (w : String) (s : List Char) : Bool := searchWB (litAt w.data) s

/-- Matcher for a plain substring pattern such as `--` or `/\*`. -/
def reLit (w : String) (s : List Char) : Bool := searchSub (litAt w.data) s

/-- Head matcher for `\bw1\s+w2...\s+wn\b` (e.g. `union\s+all\s+select`). -/
def wordsSeqAt : List (List Char) → List Char → Bool
  | [], s => boundaryAfter s
  | w :: ws, s =>
    match stripLit w s with
    | none => false
    | some rest =>
      match ws with
      | [] => boundaryAfter rest
      | _ :: _ =>
        match spaces1 rest with
        | some rest2 => wordsSeqAt ws rest2
        | none => false

/-- Matcher for `\bw1\s+w2...\s+wn\b`. -/
def reWords (ws : List String) (s : List Char) : Bool :=
  searchWB (wordsSeqAt (ws.map String.data)) s

/-! ## SQL Security Guard (`_check_sql_security`, sql_executor_tools.py) -/

/-- One element of the `security_issues` list. -/
structure SecurityIssue where
  operation : String
  description : String
  severity : String
deriving DecidableEq, Repr

/-- The dictionary returned by `_check_sql_security`. -/
structure SecurityVerdict where
  is_safe : Bool
  security_issues : List SecurityIssue
deriving DecidableEq, Repr

/-- One entry of the `dangerous_operations` list: its compiled search,
the cleaned operation text stored in an issue
(`operation.replace(r'\b','').replace(r'\s+',' ')`), the description, and
the bare keyword when the entry belongs to the read-only special list
(create/drop/delete/insert/update/alter). -/
structure DangerOp where
  run : List Char → Bool
  opName : String
  description : String
  roKeyword : Option String

/-- The `dangerous_operations` list of `_check_sql_security`, in source order. -/
def dangerousOperations : List DangerOp :=
  [⟨reWord "delete", "delete", "DELETE operation", some "delete"⟩,
   ⟨reWord "drop", "drop", "DROP TABLE/DATABASE operation", some "drop"⟩,
   ⟨reWord "truncate", "truncate", "TRUNCATE TABLE operation", none⟩,
   ⟨reWord "update", "update", "UPDATE operation", some "update"⟩,
   ⟨reWord "insert", "insert", "INSERT operation", some "insert"⟩,
   ⟨reWord "alter", "alter", "ALTER TABLE structure operation", some "alter"⟩,
   ⟨reWord "create", "create", "CREATE TABLE/DATABASE operation", some "create"⟩,
   ⟨reWord "grant", "grant", "GRANT operation", none⟩,
   ⟨reWord "revoke", "revoke", "REVOKE permission operation", none⟩,
   ⟨reWord "exec", "exec", "EXECUTE stored procedure", none⟩,
   ⟨reWordStart "xp_", "xp_", "Extended stored procedure, potential security risk", none⟩,
   ⟨reWord "shutdown", "shutdown", "SHUTDOWN database operation", none⟩,
   ⟨reWords ["union", "all", "select"], "union all select", "UNION statement, potential SQL injection", none⟩,
   ⟨reWords ["union", "select"], "union select", "UNION statement, potential SQL injection", none⟩,
   ⟨reWords ["into", "outfile"], "into outfile", "Write to file operation", none⟩,
   ⟨reWord "load_file", "load_file", "Load file operation", none⟩]

/-- Object-type keywords of the read-only sub-pattern
`\bkw\b\s+(?:table|database|view|index|procedure|function|trigger|event)`. -/
def objectTypeWords : List String :=
  ["table", "database", "view", "index", "procedure", "function", "trigger", "event"]

/-- Head matcher for the read-only sub-pattern: keyword, its trailing
boundary, one or more spaces, then one of the object-type alternatives
(no trailing boundary in the source regex). -/
def kwObjAt (kw : List Char) (s : List Char) : Bool :=
  match stripLit kw s with
  | none => false
  | some rest =>
    boundaryAfter rest &&
    match spaces1 rest with
    | some rest2 => objectTypeWords.any (fun w => litAt w.data rest2)
    | none => false

/-- Search for `\bkw\b\s+(?:table|database|...)`. -/
def reKwObj (kw : String) (s : List Char) : Bool := searchWB (kwObjAt kw.data) s

/-- Leading keywords of a read-only statement (with trailing space, as in
the source tuple). -/
def readOnlyKeywords : List String :=
  ["select ", "show ", "desc ", "describe ", "explain "]

/-- `sql_lower.strip().startswith(("select ", "show ", ...))`. -/
def isReadOnly (sqlLower : List Char) : Bool :=
  readOnlyKeywords.any (fun k => litAt k.data (pyStrip sqlLower))

/-- `_check_sql_security`: lowercase the text, classify read-only,
collect High issues from `dangerous_operations` (with the object-type
sub-pattern for the six common keywords when read-only), then Medium
comment-marker issues for non-read-only text; safe iff no issue. -/
def checkSqlSecurity (enableCheck : Bool) (sql : String) : SecurityVerdict :=
  if !enableCheck then ⟨true, []⟩
  else
    let sqlLower := lowerStr sql.data
    let ro := isReadOnly sqlLower
    let issues1 := dangerousOperations.filterMap (fun op =>
      if op.run sqlLower then
        match op.roKeyword with
        | some kw =>
          if ro then
            if reKwObj kw sqlLower then some ⟨op.opName, op.description, "High"⟩ else none
          else some ⟨op.opName, op.description, "High"⟩
        | none => some ⟨op.opName, op.description, "High"⟩
      else none)
    let issues2 :=
      if ro then []
      else
        (if reLit "--" sqlLower then
          [SecurityIssue.mk "--" "SQL comment, potential SQL injection" "Medium"] else []) ++
        (if reLit "/*" sqlLower then
          [SecurityIssue.mk "/\\*" "SQL block comment, potential SQL injection" "Medium"] else [])
    let issues := issues1 ++ issues2
    ⟨issues.isEmpty, issues⟩

/-- A single-quote character as a string, used to build SQL literals. -/
def sq : String := String.mk ['\'']

/-- The third C1 example statement, with its quoted date literal. -/
def c1DateSql : String :=
  "SELECT * FROM orders WHERE create_date > " ++ sq ++ "2020-01-01" ++ sq

/-! ## Database Router (schema_extractor.py routing step) -/

/-- Python `tok in s`: substring containment. -/
def pyIn (tok : String) (s : String) : Bool := searchSub (litAt tok.data) s.data

/-- Python `s.removeprefix(tok)`: strip `tok` only when it leads `s`. -/
def pyRemoveToken (tok : String) (s : String) : String :=
  match stripLit tok.data s.data with
  | some rest => String.mk rest
  | none => s

/-- The fixed secondary-catalog qualifier token. -/
def catalogToken : String := "mysql_catalog_bigdata."

/-- Which backend connection a catalog method queries. -/
inductive Backend
  | primary
  | secondary
deriving DecidableEq, Repr

/-- Routing step shared by `get_database_tables`, `get_table_schema`,
`get_table_comment`, `get_column_comments` and `get_table_indexes`:
`if "mysql_catalog_bigdata." in db_name:` query the secondary (MySQL)
backend with `db_name.removeprefix("mysql_catalog_bigdata.")`; otherwise
query the primary backend with `db_name` unchanged. -/
def routeDb (dbName : String) : Backend × String :=
  if pyIn catalogToken dbName then
    (Backend.secondary, pyRemoveToken catalogToken dbName)
  else
    (Backend.primary, dbName)

/-! ## LIMIT injection (execute_sql_query, sql_executor_tools.py 96-99) -/

/-- Python `s.rstrip(";")`: remove every trailing semicolon. -/
def pyRstripSemi (s : String) : String :=
  String.mk ((s.data.reverse.dropWhile (· == ';')).reverse)

/-- The LIMIT-injection step of `execute_sql_query`:
`sql_lower = sql.lower().strip()`; when `sql_lower` starts with "select"
and does not contain "limit" anywhere, the statement is rewritten to
`sql.rstrip(";") + f" LIMIT {max_rows};"`; otherwise it is unchanged. -/
def applyLimit (sql : String) (maxRows : Nat) : String :=
  let sqlLower := pyStrip (lowerStr sql.data)
  if litAt "select".data sqlLower && !(searchSub (litAt "limit".data) sqlLower) then
    pyRstripSemi sql ++ " LIMIT " ++ toString maxRows ++ ";"
  else sql

/-! ## Result handling (execute_sql_query, sql_executor_tools.py 105-213) -/

/-- Python values appearing in result rows and payloads. -/
inductive PyData where
  | null
  | str (s : String)
  | num (n : Int)
  | date (iso : String)
  | list (items : List PyData)
  | dict (fields : List (String × PyData))

/-- A mapping row as returned by the backend. -/
abbrev Row := List (String × PyData)

mutual
/-- `_serialize_row_data` branch on one value: None passes, dates render
as ISO text, lists recurse on mapping elements only, mappings recurse,
everything else passes unchanged. -/
def serializeVal : PyData → PyData
  | .null => .null
  | .str s => .str s
  | .num n => .num n
  | .date iso => .str iso
  | .list items => .list (serializeItems items)
  | .dict f => .dict (serializeFields f)

/-- List branch of `_serialize_row_data`: only elements that are
themselves mappings are serialized. -/
def serializeItems : List PyData → List PyData
  | [] => []
  | .dict f :: rest => .dict (serializeFields f) :: serializeItems rest
  | x :: rest => x :: serializeItems rest

/-- `_serialize_row_data` over the key/value pairs of a mapping. -/
def serializeFields : Row → Row
  | [] => []
  | (k, v) :: rest => (k, serializeVal v) :: serializeFields rest
end

/-- The string compared by `"doesn't exist" in error_message.lower()`. -/
def doesntExist : String := "doesn" ++ sq ++ "t exist"

/-- Error classification by message sniffing (lines 180-192): returns
the `error_details` type and suggestion. -/
def classifyDbError (msg : String) : String × String :=
  let ml := String.mk (lowerStr msg.data)
  if pyIn "timeout" ml then
    ("timeout", "Query timed out, please optimize SQL or increase timeout")
  else if pyIn "syntax" ml then
    ("syntax", "SQL syntax error, please check syntax")
  else if pyIn "not found" ml || pyIn doesntExist ml then
    ("not_found", "Table or column not found, please check table and column names")
  else
    ("unknown", "Please check the SQL statement and try simplifying the query")

/-- The response payload of `execute_sql_query`: the success envelope
(`success=true` with sql, row_count, columns, data, truncated) or the
failure payload (`success=false` with error, error_details and the
original sql and db_name). -/
inductive QueryResponse where
  | ok (sql : String) (rowCount : Nat) (columns : List String)
      (data : List Row) (truncated : Bool)
  | fail (errorMsg : String) (errType : String) (suggestion : String)
      (sql : String) (dbName : String)

/-- Result handling of `execute_sql_query` for a backend list of mapping
rows: `row_count = len(result)`, then `result[0]` is read to derive the
column names — on an empty list this raises IndexError
("list index out of range"), which the enclosing `except` turns into a
classified failure payload; otherwise the success envelope is built with
serialized rows truncated to `max_rows` and
`truncated = row_count > max_rows`. -/
def buildQueryResponse (rows : List Row) (sql dbName : String) (maxRows : Nat) : QueryResponse :=
  match rows with
  | [] =>
    let cls := classifyDbError "list index out of range"
    .fail "list index out of range" cls.1 cls.2 sql dbName
  | r0 :: _ =>
    let rowCount := rows.length
    let columns := r0.map Prod.fst
    let data := rows.map serializeFields
    .ok sql rowCount columns (data.take maxRows) (decide (maxRows < rowCount))

/-! ## Metadata Cache (schema_extractor.py, cache discipline of every method) -/

/-- Assoc-list lookup, standing for Python dict membership/access. -/
def alookup {α : Type} : List (String × α) → String → Option α
  | [], _ => none
  | (k, v) :: rest, key => if k == key then some v else alookup rest key

/-- Python dict assignment `d[key] = v`: overwrite an existing binding
in place or add a new one. -/
def ainsert {α : Type} : List (String × α) → String → α → List (String × α)
  | [], key, v => [(key, v)]
  | (k, w) :: rest, key, v =>
    if k == key then (k, v) :: rest else (k, w) :: ainsert rest key v

/-- The two dictionaries `metadata_cache` and `metadata_cache_time`,
with timestamps in whole seconds. -/
structure CacheState (α : Type) where
  cache : List (String × α)
  cacheTime : List (String × Nat)

/-- Outcome of one cached lookup: the returned value, the state after
the call, and whether the backend computation ran. -/
structure CacheCall (α : Type) where
  value : α
  state : CacheState α
  invoked : Bool

/-- The hit test
`cache_key in self.metadata_cache and (now -
self.metadata_cache_time.get(cache_key, datetime.min)).total_seconds()
< self.cache_ttl`: a key present in the value dict but missing from the
time dict defaults to `datetime.min`, whose age exceeds any ttl. -/
def cacheFresh {α : Type} (ttl : Nat) (key : String) (now : Nat) (st : CacheState α) : Bool :=
  (alookup st.cache key).isSome &&
    (match alookup st.cacheTime key with
     | some t => decide (now - t < ttl)
     | none => false)

/-- The cache discipline shared by every MetadataExtractor method (for
get_table_schema: lines 433-435 check and return, lines 549-551 store):
on a fresh hit return the cached value without touching the backend;
otherwise compute, store the value and the current time, and return it. -/
def getOrCompute {α : Type} (ttl : Nat) (key : String) (compute : Unit → α)
    (now : Nat) (st : CacheState α) : CacheCall α :=
  match alookup st.cache key with
  | some v =>
    if cacheFresh ttl key now st then ⟨v, st, false⟩
    else
      let w := compute ()
      ⟨w, ⟨ainsert st.cache key w, ainsert st.cacheTime key now⟩, true⟩
  | none =>
    let w := compute ()
    ⟨w, ⟨ainsert st.cache key w, ainsert st.cacheTime key now⟩, true⟩

/-! ## Cache keys (schema_extractor.py) -/

/-- `f"schema_{db_name}_{table_name}"` (get_table_schema, line 433). -/
def schemaCacheKey (dbName tableName : String) : String :=
  "schema_" ++ (dbName ++ ("_" ++ tableName))

/-- `f"table_comment_{db_name}_{table_name}"` (get_table_comment, line 574). -/
def tableCommentCacheKey (dbName tableName : String) : String :=
  "table_comment_" ++ (dbName ++ ("_" ++ tableName))

/-- `f"column_comments_{db_name}_{table_name}"` (get_column_comments, line 634). -/
def columnCommentsCacheKey (dbName tableName : String) : String :=
  "column_comments_" ++ (dbName ++ ("_" ++ tableName))

/-! ## Table Hierarchy Classifier (`_sort_tables_by_hierarchy`) -/

/-- Python `list.sort()` on strings: lexicographic ascending. -/
def pySort (l : List String) : List String := List.insertionSort (· ≤ ·) l

/-- The grouping loop of `_sort_tables_by_hierarchy` (lines 346-362):
for each pattern in order, the still-unassigned names matching it form a
bucket, sorted alphabetically and appended when non-empty; the names
left over after all patterns form a final sorted bucket. A compiled
regex's match test is embedded as a Boolean predicate on names. -/
def buildGroups : List (String → Bool) → List String → List (List String)
  | [], remaining => if remaining.isEmpty then [] else [pySort remaining]
  | p :: ps, remaining =>
    let matching := remaining.filter p
    let rest := remaining.filter (fun t => !(p t))
    (if matching.isEmpty then [] else [pySort matching]) ++ buildGroups ps rest

/-- `_sort_tables_by_hierarchy` (lines 329-365): pass-through when the
feature flag is off or the pattern list is empty; otherwise the input is
loaded into a set (`remaining_tables = set(tables)`, which collapses
duplicate names), grouped by the patterns and flattened. -/
def sortTablesByHierarchy (enabled : Bool) (patterns : List (String → Bool))
    (tables : List String) : List String :=
  if !enabled || patterns.isEmpty then tables
  else (buildGroups patterns tables.dedup).flatten

/-! ## Table listing (`get_database_tables`, lines 264-284) -/

/-- A raw row of the `information_schema.tables` listing query (which
selects base tables only): TABLE_NAME and TABLE_COMMENT, the latter
`Option.none` for SQL NULL. -/
structure RawTableRow where
  TABLE_NAME : String
  TABLE_COMMENT : Option String
deriving DecidableEq, Repr

/-- One `{'table_name': ..., 'table_comment': ...}` record. -/
structure TableRec where
  table_name : String
  table_comment : String
deriving DecidableEq, Repr

/-- `get_database_tables` returns, depending on the hierarchy flag,
either a list of records or — after the hierarchy sort replaces
`tables_info` — a bare list of table-name strings. -/
inductive TablesResult where
  | records (recs : List TableRec)
  | names (ns : List String)
deriving DecidableEq, Repr

/-- Result shaping of `get_database_tables`: build the
{table_name, table_comment} records with a falsy comment (None or the
empty string) normalized to the empty string; when the hierarchy feature
is enabled and the list is non-empty, `tables_info` is reassigned to
`self._sort_tables_by_hierarchy([table['table_name'] for table in tables_info])`,
a plain list of names. -/
def processTables (hierarchyEnabled : Bool) (patterns : List (String → Bool))
    (rows : List RawTableRow) : TablesResult :=
  let tablesInfo := rows.map (fun r => TableRec.mk r.TABLE_NAME (r.TABLE_COMMENT.getD ""))
  if hierarchyEnabled && !tablesInfo.isEmpty then
    .names (sortTablesByHierarchy hierarchyEnabled patterns (tablesInfo.map TableRec.table_name))
  else
    .records tablesInfo

/-! ## Column construction (`get_table_schema`, lines 489-502) -/

/-- A backend cell of one `information_schema.columns` row: the key can
be missing from the row mapping, or hold SQL NULL (Python None), text,
or a number. -/
inductive Cell where
  | missing
  | null
  | text (s : String)
  | num (n : Nat)
deriving DecidableEq, Repr

/-- A Python value as stored in the built column dict. -/
inductive FieldVal where
  | none
  | str (s : String)
  | num (n : Nat)
deriving DecidableEq, Repr

/-- Python `col.get(key, "")`-style access with a string default: the
default fires only when the key is missing; a present None stays None. -/
def cellGet (c : Cell) (dflt : FieldVal) : FieldVal :=
  match c with
  | .missing => dflt
  | .null => .none
  | .text s => .str s
  | .num n => .num n

/-- Python truthiness of a field value. -/
def truthy : FieldVal → Bool
  | .none => false
  | .str s => !s.isEmpty
  | .num n => n != 0

/-- Python `x or ""`. -/
def orEmptyStr (v : FieldVal) : FieldVal := if truthy v then v else .str ""

/-- A raw row of the `information_schema.columns` query (which orders by
ORDINAL_POSITION). -/
structure RawColRow where
  COLUMN_NAME : Cell
  DATA_TYPE : Cell
  IS_NULLABLE : Cell
  COLUMN_DEFAULT : Cell
  COLUMN_COMMENT : Cell
  ORDINAL_POSITION : Cell
  COLUMN_KEY : Cell
  EXTRA : Cell
deriving DecidableEq, Repr

/-- One entry of the `columns` list built by `get_table_schema`. Note
that `comment`, `key` and `extra` apply `or ""` to the fetched value
while `default` does not. -/
structure ColumnInfo where
  name : FieldVal
  type : FieldVal
  nullable : Bool
  default : FieldVal
  comment : FieldVal
  position : FieldVal
  key : FieldVal
  extra : FieldVal
deriving DecidableEq, Repr

/-- The `column_info` dict built for one row (lines 492-501). -/
def mkColumnInfo (col : RawColRow) : ColumnInfo :=
  { name := cellGet col.COLUMN_NAME (.str "")
    type := cellGet col.DATA_TYPE (.str "")
    nullable := cellGet col.IS_NULLABLE (.str "") == FieldVal.str "YES"
    default := cellGet col.COLUMN_DEFAULT (.str "")
    comment := orEmptyStr (cellGet col.COLUMN_COMMENT (.str ""))
    position := cellGet col.ORDINAL_POSITION (.str "")
    key := orEmptyStr (cellGet col.COLUMN_KEY (.str ""))
    extra := orEmptyStr (cellGet col.EXTRA (.str "")) }

/-- The `columns` list: one entry per backend row, in backend order. -/
def buildColumns (rows : List RawColRow) : List ColumnInfo := rows.map mkColumnInfo

/-- Numeric ordinal of a raw row (0 when the backend cell is not a number). -/
def rawOrdinal (r : RawColRow) : Nat :=
  match r.ORDINAL_POSITION with
  | .num n => n
  | _ => 0

/-- Numeric ordinal of a built column (0 when not a number). -/
def colOrdinal (c : ColumnInfo) : Nat :=
  match c.position with
  | .num n => n
  | _ => 0

/-! ## SQL pattern mining (`extract_common_sql_patterns`, lines 856-995) -/

/-- One audit-log row; only the stmt column is read by the mining loop. -/
structure AuditRow where
  stmt : String
deriving DecidableEq, Repr

/-- A mined output record. In the empty-audit-window fallback the three
json-text fields are absent from the dict (`Option.none`); everywhere
else they are present. -/
structure PatternRec where
  pattern : String
  type : String
  frequency : Nat
  examples : Option String
  comments : Option String
  tables : Option String
deriving DecidableEq, Repr

/-- The two fixed generic records returned when the audit window is
empty (lines 871-883): only pattern/type/frequency keys. -/
def defaultPatternsBare : List PatternRec :=
  [⟨"SELECT * FROM {table} WHERE {condition}", "SELECT", 1, none, none, none⟩,
   ⟨"SELECT {columns} FROM {table} GROUP BY {group_by} ORDER BY {order_by} LIMIT {limit}",
    "SELECT", 1, none, none, none⟩]

/-- The two fixed generic records returned when no pattern was mined
(lines 951-970) or when mining raised (lines 977-995): same templates,
with empty examples/comments/tables json texts. -/
def defaultPatternsFull : List PatternRec :=
  [⟨"SELECT * FROM {table} WHERE {condition}", "SELECT", 1, some "[]", some "[]", some "[]"⟩,
   ⟨"SELECT {columns} FROM {table} GROUP BY {group_by} ORDER BY {order_by} LIMIT {limit}",
    "SELECT", 1, some "[]", some "[]", some "[]"⟩]

/-- Helper surface of the mining loop. `_get_sql_type` and
`_are_sqls_similar` are called by `extract_common_sql_patterns` but are
defined nowhere in this repository, so they are held abstract; the other
helpers are abstracted with them since the claim quantifies over every
behavior. An `Except.error` models an exception raised in a helper
(including the AttributeError the two missing helpers raise). -/
structure MiningHelpers where
  getSqlType : String → Except String (Option String)
  simplifySql : String → Except String String
  extractTables : String → Except String (List String)
  extractComments : String → Except String String
  similar : String → String → Except String Bool

/-- One accumulated cluster of similar statements. -/
structure Cluster where
  simplified_sql : String
  examples : List String
  comments : List String
  count : Nat
  tables : List String
deriving Repr

/-- The inner similarity scan (lines 911-929): the first similar cluster
is updated (count, examples, comments-if-nonempty) and the scan stops;
when none is similar a fresh cluster is appended at the end. -/
def addToClusters (similar : String → String → Except String Bool)
    (simplified sql comments : String) (tables : List String) :
    List Cluster → Except String (List Cluster)
  | [] => .ok [⟨simplified, [sql], if comments.isEmpty then [] else [comments], 1, tables⟩]
  | cl :: rest => do
    let b ← similar simplified cl.simplified_sql
    if b then
      .ok ({ cl with
              count := cl.count + 1
              examples := cl.examples ++ [sql]
              comments := if comments.isEmpty then cl.comments
                          else cl.comments ++ [comments] } :: rest)
    else do
      let rest2 ← addToClusters similar simplified sql comments tables rest
      .ok (cl :: rest2)

/-- The per-row step of the mining loop (lines 887-929): skip falsy
statements and falsy statement types, otherwise simplify, extract
tables and comments, and add to the clusters of that type. -/
def processRow (h : MiningHelpers) (byType : List (String × List Cluster))
    (sql : String) : Except String (List (String × List Cluster)) :=
  if sql.isEmpty then .ok byType
  else do
    let ty? ← h.getSqlType sql
    match ty? with
    | Option.none => .ok byType
    | Option.some ty => do
      let simplified ← h.simplifySql sql
      let tables ← h.extractTables sql
      let comments ← h.extractComments sql
      let cls := (alookup byType ty).getD []
      let cls2 ← addToClusters h.similar simplified sql comments tables cls
      .ok (ainsert byType ty cls2)

/-- `json.dumps` of a list of strings (escaping elided: only the full
rendered text is stored in the record; `jsonDumpsList [] = "[]"`). -/
def jsonDumpsList (l : List String) : String :=
  "[" ++ String.intercalate ", " (l.map (fun s => "\"" ++ s ++ "\"")) ++ "]"

/-- Output conversion of one cluster (lines 939-948). -/
def clusterToRec (ty : String) (cl : Cluster) : PatternRec :=
  ⟨cl.simplified_sql, ty, cl.count,
   some (jsonDumpsList (cl.examples.take 3)),
   some (if cl.comments.isEmpty then "[]" else jsonDumpsList (cl.comments.take 3)),
   some (jsonDumpsList cl.tables)⟩

/-- `sorted(type_patterns, key=lambda x: x['count'], reverse=True)`:
stable descending sort by count. -/
def sortClustersDesc (cls : List Cluster) : List Cluster :=
  List.insertionSort (fun a b => b.count < a.count) cls

/-- The mining body inside the `try` (lines 868-972 without the
fallbacks): fold the loop over the audit rows, then emit the top three
clusters per statement type in first-seen type order. -/
def mineBody (h : MiningHelpers) (rows : List AuditRow) :
    Except String (List PatternRec) := do
  let byType ← rows.foldlM (fun acc r => processRow h acc r.stmt) []
  .ok (byType.flatMap (fun tyCls =>
    ((sortClustersDesc tyCls.2).take 3).map (clusterToRec tyCls.1)))

/-- `extract_common_sql_patterns`: empty audit window → the bare default
records; a raised exception anywhere in mining → the full default
records; a mined-but-empty result → the full default records; otherwise
the mined records. The function never propagates an exception. -/
def extractCommonSqlPatterns (h : MiningHelpers) (auditLogs : List AuditRow) :
    List PatternRec :=
  if auditLogs.isEmpty then defaultPatternsBare
  else
    match mineBody h auditLogs with
    | .ok recs => if recs.isEmpty then defaultPatternsFull else recs
    | .error _ => defaultPatternsFull

/-! ## Helper lemmas -/

theorem alookup_ainsert {α : Type} (l : List (String × α)) (k : String) (v : α) :
    alookup (ainsert l k v) k = some v := by
  induction l with
  | nil => simp [ainsert, alookup]
  | cons kw rest ih =>
    obtain ⟨k', w⟩ := kw
    by_cases h : k' == k
    · simp [ainsert, alookup, h]
    · simp [ainsert, alookup, h, ih]

theorem keyTail_inj (p db t1 t2 : String)
    (h : p ++ (db ++ ("_" ++ t1)) = p ++ (db ++ ("_" ++ t2))) : t1 = t2 := by
  have hd := congrArg String.data h
  simp only [String.data_append] at hd
  exact String.ext
    (List.append_cancel_left (List.append_cancel_left (List.append_cancel_left hd)))

theorem keyDb_inj (p db1 db2 t : String)
    (h : p ++ (db1 ++ ("_" ++ t)) = p ++ (db2 ++ ("_" ++ t))) : db1 = db2 := by
  have hd := congrArg String.data h
  simp only [String.data_append] at hd
  have h2 := List.append_cancel_left hd
  rw [← List.append_assoc, ← List.append_assoc] at h2
  have h3 := List.append_cancel_right h2
  exact String.ext (List.append_cancel_right h3)

theorem diffLead_ne (p q x y : String) (n : Nat)
    (hp : n ≤ p.data.length) (hq : n ≤ q.data.length)
    (hne : p.data.take n ≠ q.data.take n) :
    p ++ x ≠ q ++ y := by
  intro h
  apply hne
  have hd := congrArg String.data h
  rw [String.data_append, String.data_append] at hd
  have h2 := congrArg (List.take n) hd
  rwa [List.take_append_of_le_length hp, List.take_append_of_le_length hq] at h2

theorem flatten_optGroup (m : List String) (gs : List (List String)) :
    ((if m.isEmpty then [] else [pySort m]) ++ gs).flatten = pySort m ++ gs.flatten := by
  by_cases h : m.isEmpty
  · simp [h, List.isEmpty_iff.mp h, pySort]
  · simp [h]

theorem buildGroups_flatten_perm (ps : List (String → Bool)) :
    ∀ (remaining : List String), ((buildGroups ps remaining).flatten).Perm remaining := by
  induction ps with
  | nil =>
    intro remaining
    by_cases h : remaining.isEmpty
    · simp [buildGroups, h, List.isEmpty_iff.mp h]
    · have hp := List.perm_insertionSort (α := String) (· ≤ ·) remaining
      simp only [buildGroups, h, Bool.false_eq_true, if_false, List.flatten_cons,
        List.flatten_nil, List.append_nil]
      exact hp
  | cons p ps ih =>
    intro remaining
    have h1 : (buildGroups (p :: ps) remaining).flatten =
        pySort (remaining.filter p) ++
          (buildGroups ps (remaining.filter (fun t => !(p t)))).flatten := by
      simp only [buildGroups]
      exact flatten_optGroup _ _
    rw [h1]
    exact (List.Perm.append (List.perm_insertionSort _ _) (ih _)).trans
      (List.filter_append_perm p remaining)

theorem sortTables_perm_nodup (enabled : Bool) (patterns : List (String → Bool))
    (tables : List String) (h : tables.Nodup) :
    (sortTablesByHierarchy enabled patterns tables).Perm tables := by
  unfold sortTablesByHierarchy
  by_cases hc : (!enabled || patterns.isEmpty) = true
  · simp [hc]
  · simp only [hc, Bool.false_eq_true, if_false]
    rw [List.dedup_eq_self.mpr h]
    exact buildGroups_flatten_perm patterns tables

theorem colOrdinal_mk (r : RawColRow) : colOrdinal (mkColumnInfo r) = rawOrdinal r := by
  cases h : r.ORDINAL_POSITION <;>
    simp [colOrdinal, rawOrdinal, mkColumnInfo, cellGet, h]

/-! ## Claim theorems -/

/-- C1: with the security check enabled, the guard returns a safe
verdict for "SELECT * FROM t"; an unsafe verdict whose single issue is
the High-severity DROP issue for "DROP TABLE t"; a safe verdict for
"SELECT * FROM orders WHERE create_date > (quoted date)" although the
text contains the substring "create"; and
"select * from t -- drop everything" is classified read-only and gets a
verdict with no issue at all, in particular none for the trailing
comment. -/
theorem securityGuard_examples :
    checkSqlSecurity true "SELECT * FROM t" = ⟨true, []⟩ ∧
    checkSqlSecurity true "DROP TABLE t" =
      ⟨false, [⟨"drop", "DROP TABLE/DATABASE operation", "High"⟩]⟩ ∧
    checkSqlSecurity true c1DateSql = ⟨true, []⟩ ∧
    isReadOnly (lowerStr "select * from t -- drop everything".data) = true ∧
    checkSqlSecurity true "select * from t -- drop everything" = ⟨true, []⟩ :=
  ⟨by decide, by decide, by decide, by decide, by decide⟩

/-- C2, failing input: the routing step tests the catalog token with
Python substring containment, not an exact leading prefix, while the
stripping uses removeprefix. A database name that merely contains the
token, such as "a.mysql_catalog_bigdata.b", is therefore routed to the
secondary backend with the name unstripped, where the claim requires
primary routing with the name unchanged. Names that start with the
token, and names without the token, behave as the claim states. -/
theorem routeDb_substring_misroute :
    routeDb "a.mysql_catalog_bigdata.b" = (Backend.secondary, "a.mysql_catalog_bigdata.b") ∧
    routeDb "mysql_catalog_bigdata.sales" = (Backend.secondary, "sales") ∧
    routeDb "sales" = (Backend.primary, "sales") :=
  ⟨by decide, by decide, by decide⟩

/-- C3, counterexample: the rewrite appends a trailing semicolon, so
"SELECT * FROM t" with max_rows 50 does not become exactly
"SELECT * FROM t LIMIT 50". -/
theorem applyLimit_counterexample :
    applyLimit "SELECT * FROM t" 50 ≠ "SELECT * FROM t LIMIT 50" := by decide

/-- C3, amended: "SELECT * FROM t" with max_rows 50 becomes exactly
"SELECT * FROM t LIMIT 50;" with a trailing semicolon (trailing
semicolons of the original are stripped first); any statement whose
lower-cased trimmed text starts with "select" and contains no "limit"
is rewritten the same way; and any statement containing "limit"
anywhere is passed through unmodified regardless of max_rows. -/
theorem applyLimit_amended :
    applyLimit "SELECT * FROM t" 50 = "SELECT * FROM t LIMIT 50;" ∧
    (∀ (sql : String) (maxRows : Nat),
        litAt "select".data (pyStrip (lowerStr sql.data)) = true →
        searchSub (litAt "limit".data) (pyStrip (lowerStr sql.data)) = false →
        applyLimit sql maxRows = pyRstripSemi sql ++ " LIMIT " ++ toString maxRows ++ ";") ∧
    (∀ (sql : String) (maxRows : Nat),
        searchSub (litAt "limit".data) (pyStrip (lowerStr sql.data)) = true →
        applyLimit sql maxRows = sql) := by
  refine ⟨by decide, ?_, ?_⟩
  · intro sql maxRows h1 h2
    unfold applyLimit
    simp [h1, h2]
  · intro sql maxRows h
    unfold applyLimit
    simp [h]

/-- Witness for C3: the amended theorem applied to
"SELECT * FROM t LIMIT 10", which contains "limit" and is returned
unmodified for max_rows 99. -/
theorem applyLimit_amended_witness :
    searchSub (litAt "limit".data)
      (pyStrip (lowerStr "SELECT * FROM t LIMIT 10".data)) = true ∧
    applyLimit "SELECT * FROM t LIMIT 10" 99 = "SELECT * FROM t LIMIT 10" :=
  ⟨by decide, applyLimit_amended.2.2 "SELECT * FROM t LIMIT 10" 99 (by decide)⟩

/-- C4: when the backend raises no error but returns an empty row list,
reading result[0] for the column names raises IndexError, which the
enclosing handler converts into a failure payload whose error_details
type is "unknown"; no success envelope with row_count 0 is ever built. -/
theorem emptyRows_failure (sql dbName : String) (maxRows : Nat) :
    buildQueryResponse [] sql dbName maxRows =
      QueryResponse.fail "list index out of range" "unknown"
        "Please check the SQL statement and try simplifying the query" sql dbName := rfl

/-- C5: starting from a state without the key, the first call computes
and stores; a second call within the ttl window is served from the cache
without invoking the backend and returns the first value; a third call
at or past the ttl recomputes and overwrites both the value and the
stored time. -/
theorem cache_ttl_semantics {α : Type} (ttl : Nat) (key : String)
    (f g : Unit → α) (t1 t2 t3 : Nat) (st0 : CacheState α)
    (hmiss : alookup st0.cache key = none)
    (hin : t2 - t1 < ttl) (hout : ttl ≤ t3 - t1) :
    ((getOrCompute ttl key f t1 st0).invoked = true ∧
     (getOrCompute ttl key f t2 (getOrCompute ttl key f t1 st0).state).invoked = false ∧
     (getOrCompute ttl key f t2 (getOrCompute ttl key f t1 st0).state).value =
       (getOrCompute ttl key f t1 st0).value) ∧
    ((getOrCompute ttl key g t3
        (getOrCompute ttl key f t2 (getOrCompute ttl key f t1 st0).state).state).invoked
        = true ∧
     alookup (getOrCompute ttl key g t3
        (getOrCompute ttl key f t2
          (getOrCompute ttl key f t1 st0).state).state).state.cache key = some (g ()) ∧
     alookup (getOrCompute ttl key g t3
        (getOrCompute ttl key f t2
          (getOrCompute ttl key f t1 st0).state).state).state.cacheTime key = some t3) := by
  have h1 : getOrCompute ttl key f t1 st0 =
      ⟨f (), ⟨ainsert st0.cache key (f ()), ainsert st0.cacheTime key t1⟩, true⟩ := by
    simp [getOrCompute, hmiss]
  rw [h1]
  have hfresh2 : cacheFresh ttl key t2
      (⟨ainsert st0.cache key (f ()), ainsert st0.cacheTime key t1⟩ : CacheState α) = true := by
    simp [cacheFresh, alookup_ainsert, hin]
  have h2 : getOrCompute ttl key f t2
      (⟨ainsert st0.cache key (f ()), ainsert st0.cacheTime key t1⟩ : CacheState α) =
      ⟨f (), ⟨ainsert st0.cache key (f ()), ainsert st0.cacheTime key t1⟩, false⟩ := by
    simp [getOrCompute, alookup_ainsert, hfresh2]
  rw [h2]
  have hfresh3 : cacheFresh ttl key t3
      (⟨ainsert st0.cache key (f ()), ainsert st0.cacheTime key t1⟩ : CacheState α) = false := by
    simp [cacheFresh, alookup_ainsert]
    omega
  have h3 : getOrCompute ttl key g t3
      (⟨ainsert st0.cache key (f ()), ainsert st0.cacheTime key t1⟩ : CacheState α) =
      ⟨g (), ⟨ainsert (ainsert st0.cache key (f ())) key (g ()),
              ainsert (ainsert st0.cacheTime key t1) key t3⟩, true⟩ := by
    simp [getOrCompute, alookup_ainsert, hfresh3]
  rw [h3]
  simp [alookup_ainsert]

/-- Witness for C5: ttl 10 and call times 0, 5, 12 on the schema key of
db1.t1, starting from the empty cache: the first call invokes the
backend and the second call does not. -/
theorem cache_ttl_semantics_witness :
    (getOrCompute 10 (schemaCacheKey "db1" "t1") (fun _ => (1 : Nat)) 0 ⟨[], []⟩).invoked
      = true ∧
    (getOrCompute 10 (schemaCacheKey "db1" "t1") (fun _ => (1 : Nat)) 5
      (getOrCompute 10 (schemaCacheKey "db1" "t1")
        (fun _ => (1 : Nat)) 0 ⟨[], []⟩).state).invoked = false :=
  ⟨(cache_ttl_semantics 10 (schemaCacheKey "db1" "t1") (fun _ => 1) (fun _ => 2)
      0 5 12 ⟨[], []⟩ rfl (by decide) (by decide)).1.1,
   (cache_ttl_semantics 10 (schemaCacheKey "db1" "t1") (fun _ => 1) (fun _ => 2)
      0 5 12 ⟨[], []⟩ rfl (by decide) (by decide)).1.2.1⟩

/-- C6, counterexample: the keys are built by joining the parts with an
underscore, so the distinct targets (db "a", table "b_c") and
(db "a_b", table "c") produce the same get_table_schema cache key. -/
theorem schemaCacheKey_collision :
    (("a" : String), ("b_c" : String)) ≠ (("a_b" : String), ("c" : String)) ∧
    schemaCacheKey "a" "b_c" = schemaCacheKey "a_b" "c" :=
  ⟨by decide, rfl⟩

/-- C6, amended: cache keys of different operations never collide, and
two get_table_schema targets sharing the database name (or sharing the
table name) never collide; but two targets differing in both components
may collide when the underscore-joined parts coincide. -/
theorem cacheKeys_amended :
    (∀ (db t1 t2 : String), t1 ≠ t2 → schemaCacheKey db t1 ≠ schemaCacheKey db t2) ∧
    (∀ (db1 db2 t : String), db1 ≠ db2 → schemaCacheKey db1 t ≠ schemaCacheKey db2 t) ∧
    (∀ (db1 t1 db2 t2 : String), schemaCacheKey db1 t1 ≠ tableCommentCacheKey db2 t2) ∧
    (∀ (db1 t1 db2 t2 : String), schemaCacheKey db1 t1 ≠ columnCommentsCacheKey db2 t2) ∧
    (∀ (db1 t1 db2 t2 : String),
        tableCommentCacheKey db1 t1 ≠ columnCommentsCacheKey db2 t2) := by
  refine ⟨?_, ?_, ?_, ?_, ?_⟩
  · intro db t1 t2 hne h
    exact hne (keyTail_inj "schema_" db t1 t2 h)
  · intro db1 db2 t hne h
    exact hne (keyDb_inj "schema_" db1 db2 t h)
  · intro db1 t1 db2 t2
    exact diffLead_ne "schema_" "table_comment_" _ _ 7 (by decide) (by decide) (by decide)
  · intro db1 t1 db2 t2
    exact diffLead_ne "schema_" "column_comments_" _ _ 1 (by decide) (by decide) (by decide)
  · intro db1 t1 db2 t2
    exact diffLead_ne "table_comment_" "column_comments_" _ _ 1
      (by decide) (by decide) (by decide)

/-- Witness for C6: the amended theorem applied to the same database
"db" with the distinct tables "t1" and "t2". -/
theorem cacheKeys_amended_witness :
    (("t1" : String) ≠ "t2") ∧ schemaCacheKey "db" "t1" ≠ schemaCacheKey "db" "t2" :=
  ⟨by decide, cacheKeys_amended.1 "db" "t1" "t2" (by decide)⟩

/-- C7, failing input: with hierarchy classification enabled,
get_database_tables does not keep the {table_name, table_comment} record
shape: tables_info is reassigned to the bare name list produced by
_sort_tables_by_hierarchy, losing the comments; with the feature off,
the record shape and the empty-string normalization of an absent
comment hold as claimed. -/
theorem processTables_hierarchy_shape :
    processTables true [fun _ => true] [⟨"ods_t", some "fact table"⟩] =
      TablesResult.names ["ods_t"] ∧
    processTables false [] [⟨"ods_t", some "fact table"⟩, ⟨"dim_d", none⟩] =
      TablesResult.records [⟨"ods_t", "fact table"⟩, ⟨"dim_d", ""⟩] :=
  ⟨rfl, rfl⟩

/-- C8, counterexample: the sorter loads the input into a Python set,
so the duplicate-bearing input ["a", "a"] yields ["a"], which is not a
permutation of the input containing every input element exactly once. -/
theorem sortTables_duplicate_counterexample :
    sortTablesByHierarchy true [fun _ => true] ["a", "a"] = ["a"] ∧
    ¬ List.Perm (sortTablesByHierarchy true [fun _ => true] ["a", "a"]) ["a", "a"] :=
  ⟨by decide, by decide⟩

/-- C8, amended: for duplicate-free inputs (table names are unique per
database) the output is a permutation of the input containing every
element exactly once, with total length equal to the input length;
duplicates in the input are collapsed first. When the feature flag is
off or the pattern list is empty the input is returned unchanged in its
given order. -/
theorem sortTables_amended :
    (∀ (enabled : Bool) (patterns : List (String → Bool)) (tables : List String),
        tables.Nodup →
        (sortTablesByHierarchy enabled patterns tables).Perm tables ∧
        (sortTablesByHierarchy enabled patterns tables).length = tables.length) ∧
    (∀ (enabled : Bool) (patterns : List (String → Bool)) (tables : List String),
        enabled = false ∨ patterns = [] →
        sortTablesByHierarchy enabled patterns tables = tables) := by
  constructor
  · intro enabled patterns tables h
    have hp := sortTables_perm_nodup enabled patterns tables h
    exact ⟨hp, hp.length_eq⟩
  · intro enabled patterns tables h
    unfold sortTablesByHierarchy
    rcases h with h | h
    · simp [h]
    · simp [h]

/-- Witness for C8: the amended theorem applied to the duplicate-free
input ["b", "a"] with a catch-all pattern. -/
theorem sortTables_amended_witness :
    (["b", "a"] : List String).Nodup ∧
    (sortTablesByHierarchy true [fun _ => true] ["b", "a"]).Perm ["b", "a"] :=
  ⟨by decide, (sortTables_amended.1 true [fun _ => true] ["b", "a"] (by decide)).1⟩

/-- C9, counterexample: a column whose COLUMN_DEFAULT is present but SQL
NULL keeps Python None as its "default" field, because the source builds
it with col.get("COLUMN_DEFAULT", "") and no `or ""`, and the dict-get
default fires only for a missing key. -/
theorem columnDefault_null_counterexample :
    (mkColumnInfo ⟨.text "id", .text "int", .text "YES", .null, .null,
        .num 1, .null, .null⟩).default = FieldVal.none ∧
    FieldVal.none ≠ FieldVal.str "" :=
  ⟨rfl, by decide⟩

/-- C9, amended: the built columns preserve the backend row order, whose
query sorts by ORDINAL_POSITION, so ordinal-sorted input rows yield
ordinal-sorted columns; an absent or NULL COLUMN_COMMENT becomes the
empty string; an absent COLUMN_DEFAULT becomes the empty string, but a
present NULL default stays None. -/
theorem tableSchema_columns_amended :
    (∀ (rows : List RawColRow),
        (buildColumns rows).map ColumnInfo.position =
          rows.map (fun r => cellGet r.ORDINAL_POSITION (.str ""))) ∧
    (∀ (rows : List RawColRow),
        List.Pairwise (· ≤ ·) (rows.map rawOrdinal) →
        List.Pairwise (· ≤ ·) ((buildColumns rows).map colOrdinal)) ∧
    (∀ (r : RawColRow), r.COLUMN_COMMENT = .null ∨ r.COLUMN_COMMENT = .missing →
        (mkColumnInfo r).comment = .str "") ∧
    (∀ (r : RawColRow), r.COLUMN_DEFAULT = .missing →
        (mkColumnInfo r).default = .str "") := by
  refine ⟨?_, ?_, ?_, ?_⟩
  · intro rows
    rw [buildColumns, List.map_map]
    rfl
  · intro rows h
    have e : (buildColumns rows).map colOrdinal = rows.map rawOrdinal := by
      rw [buildColumns, List.map_map]
      exact List.map_congr_left (fun r _ => colOrdinal_mk r)
    rwa [e]
  · intro r h
    rcases h with h | h <;> simp [mkColumnInfo, h, cellGet, orEmptyStr, truthy]
  · intro r h
    simp [mkColumnInfo, h, cellGet]

/-- Witness for C9: the amended theorem applied to a row with a missing
COLUMN_DEFAULT key, whose built default is the empty string. -/
theorem tableSchema_columns_amended_witness :
    (RawColRow.mk (.text "id") (.text "int") (.text "YES") .missing .null
        (.num 1) .null .null).COLUMN_DEFAULT = Cell.missing ∧
    (mkColumnInfo (RawColRow.mk (.text "id") (.text "int") (.text "YES") .missing .null
        (.num 1) .null .null)).default = FieldVal.str "" :=
  ⟨rfl, tableSchema_columns_amended.2.2.2
    (RawColRow.mk (.text "id") (.text "int") (.text "YES") .missing .null
      (.num 1) .null .null) rfl⟩

/-- C10: an empty audit window returns the two bare generic pattern
records; a raised exception anywhere in the mining body returns the two
full generic pattern records instead of propagating; and both fallback
lists consist of exactly the SELECT-with-condition and
SELECT-with-group-order-limit templates. -/
theorem extractPatterns_fallback :
    (∀ (h : MiningHelpers), extractCommonSqlPatterns h [] = defaultPatternsBare) ∧
    (∀ (h : MiningHelpers) (logs : List AuditRow) (e : String),
        mineBody h logs = .error e →
        extractCommonSqlPatterns h logs = defaultPatternsFull) ∧
    defaultPatternsBare.map PatternRec.pattern = defaultPatternsFull.map PatternRec.pattern ∧
    defaultPatternsBare.map PatternRec.pattern =
      ["SELECT * FROM {table} WHERE {condition}",
       "SELECT {columns} FROM {table} GROUP BY {group_by} ORDER BY {order_by} LIMIT {limit}"] := by
  refine ⟨fun h => rfl, ?_, rfl, rfl⟩
  intro h logs e he
  cases logs with
  | nil => simp [mineBody] at he
  | cons a as => simp [extractCommonSqlPatterns, he]

/-- Witness for C10: helpers whose statement-type lookup raises (as the
undefined _get_sql_type does) make the mining body fail on a one-row
window, and the function returns the full default records. -/
theorem extractPatterns_fallback_witness :
    mineBody ⟨fun _ => .error "AttributeError", fun s => .ok s,
        fun _ => .ok [], fun _ => .ok "", fun _ _ => .ok false⟩
      [⟨"SELECT a FROM t"⟩] = .error "AttributeError" ∧
    extractCommonSqlPatterns ⟨fun _ => .error "AttributeError", fun s => .ok s,
        fun _ => .ok [], fun _ => .ok "", fun _ _ => .ok false⟩
      [⟨"SELECT a FROM t"⟩] = defaultPatternsFull :=
  ⟨rfl, extractPatterns_fallback.2.1 _ _ "AttributeError" rfl⟩

end DorisMcp
